import Mathlib

/-!
Verification of the Orihime clang driver toolchain backend
(clang/lib/Driver/ToolChains/Orihime.{h,cpp}).

The development shallowly embeds the toolchain code as executable Lean
functions:
  * path manipulation (the subset of llvm::sys::path used by the code),
  * the multilib model and selection (clang Multilib / MultilibSet),
  * the Orihime toolchain constructor (Orihime::Orihime),
  * the linker job builder (orihime::Linker::ConstructJob),
  * include-path resolution (AddClangSystemIncludeArgs,
    AddClangCXXStdlibIncludeArgs),
  * the policy queries (GetRuntimeLibType, GetCXXStdlibType).

External collaborators that the code consumes (the virtual filesystem
existence probe, ToolChain::getCXXStdlibPath, the argument list, the
base-class-provided file path list, AddLinkerInputs, AddFilePathLibArgs,
addLTOOptions) are passed in as explicit parameters, so every theorem
quantifies over them.
-/

namespace OrihimeSpec

/-! Section: Strings and paths

Model of the llvm::sys::path helpers used by the source (posix style).
-/

/-- Last character of a string, as a list operation. -/
def lastChar (s : String) : Option Char := s.data.getLast?

/-- First character of a string. -/
def headChar (s : String) : Option Char := s.data.head?

/-- Model of llvm path append: true when the accumulated path is nonempty and
ends in a separator (posix separator is the slash). -/
def pathHasSep (p : String) : Bool := lastChar p == some '/'

/-- True when the appended component starts with a separator. -/
def compHasSep (c : String) : Bool := headChar c == some '/'

/-- Drop leading separators from a component. -/
def stripLeadingSeps (c : String) : String := ⟨c.data.dropWhile (fun ch => ch == '/')⟩

/-- Model of llvm sys path append for a single component (posix style):
if the path already ends in a separator, strip the component of leading
separators and append it; otherwise insert a separator unless the component
brings its own or the path is empty.  A multi-component append in the source
is modelled as iterated single-component appends, which is how the llvm
implementation processes its component list. -/
def pathAppend (p c : String) : String :=
  if pathHasSep p then p ++ stripLeadingSeps c
  else if !compHasSep c && p != "" then p ++ "/" ++ c
  else p ++ c

/-- Append the three components of the sysroot library directory, as in the
source call append(P, "resource", "development", "library"). -/
def libraryPath (sysRoot : String) : String :=
  pathAppend (pathAppend (pathAppend sysRoot "resource") "development") "library"

/-- Lower-case a string character by character (model of StringRef
equals_lower comparison, which compares after lower-casing). -/
def lowerStr (s : String) : String := ⟨s.data.map Char.toLower⟩

/-- Case-insensitive string comparison, model of StringRef equals_lower. -/
def eqLower (a b : String) : Bool := lowerStr a == lowerStr b

/-- Model of llvm sys path filename (posix): the part after the last
separator. -/
def pathFilename (p : String) : String :=
  ⟨(p.data.reverse.takeWhile (fun ch => ch != '/')).reverse⟩

/-- Model of llvm sys path stem: the filename with the extension after the
last dot removed; a filename with no dot, or the special names dot and
dot-dot, is returned whole. -/
def pathStem (p : String) : String :=
  let f := (pathFilename p).data
  if f = ['.'] || f = ['.', '.'] then ⟨f⟩
  else
    match f.reverse.dropWhile (fun ch => ch != '.') with
    | [] => ⟨f⟩
    | _ :: restRev => ⟨restRev.reverse⟩

/-! Section: Multilibs

Model of clang Multilib / MultilibSet as used by Orihime::Orihime.
-/

/-- Model of clang Multilib: the suffix fields (already normalized, i.e.
either empty or starting with a slash), the priority, and the flag list
( plus-prefixed means the flag must be enabled, minus-prefixed disabled). -/
structure Multilib where
  gccSuffix : String
  osSuffix : String
  includeSuffix : String
  priority : Int
  flags : List String
deriving DecidableEq, Repr

/-- Multilib() — the default variant: empty suffixes, priority 0, no flags. -/
def defaultMultilib : Multilib := ⟨"", "", "", 0, []⟩

/-- Multilib("noexcept", {}, {}, 1).flag("-fexceptions").flag("+fno-exceptions").
The constructor normalizes the gcc suffix "noexcept" to "/noexcept". -/
def noexceptMultilib : Multilib :=
  ⟨"/noexcept", "", "", 1, ["-fexceptions", "+fno-exceptions"]⟩

/-- Multilib isDefault: all three suffixes empty. -/
def Multilib.isDefault (m : Multilib) : Bool :=
  m.gccSuffix == "" && m.osSuffix == "" && m.includeSuffix == ""

/-- clang isFlagEnabled: a flag string is enabled when it starts with a plus. -/
def isFlagEnabled (f : String) : Bool := headChar f == some '+'

/-- The name of a flag string: everything after the plus or minus indicator. -/
def flagName (f : String) : String := f.drop 1

/-- The StringMap built by MultilibSet select from the invocation flag list;
later insertions overwrite earlier ones, hence the reversed search. -/
def flagSetLookup (flags : List String) (name : String) : Option Bool :=
  (flags.reverse.find? (fun f => flagName f == name)).map isFlagEnabled

/-- A multilib survives the select filter when none of its flags contradicts
the invocation flag map (flags absent from the map are unconstrained). -/
def multilibMatches (flags : List String) (m : Multilib) : Bool :=
  m.flags.all (fun f =>
    match flagSetLookup flags (flagName f) with
    | some b => b == isFlagEnabled f
    | none => true)

/-- Insert a multilib into a list sorted by strictly descending priority. -/
def insertByPriorityDesc (m : Multilib) : List Multilib → List Multilib
  | [] => [m]
  | a :: rest =>
    if m.priority > a.priority then m :: a :: rest
    else a :: insertByPriorityDesc m rest

/-- Sort a multilib list by descending priority (one order consistent with
the llvm sort comparator priority-greater-than; the lists arising here have
pairwise distinct priorities, for which the sorted order is unique). -/
def sortByPriorityDesc : List Multilib → List Multilib
  | [] => []
  | a :: rest => insertByPriorityDesc a (sortByPriorityDesc rest)

/-- Outcome of MultilibSet select: no variant matched (select returns false
and leaves the output multilib untouched), a selected variant, or the
report_fatal_error path taken when two matching variants share the highest
priority. -/
inductive SelectOutcome where
  | noMatch : SelectOutcome
  | picked : Multilib → SelectOutcome
  | fatalTie : SelectOutcome
deriving DecidableEq, Repr

/-- Model of MultilibSet select: filter by flag compatibility; an empty
result is a failed selection; a singleton is returned directly; otherwise
sort by descending priority and return the front element provided it has
strictly greater priority than the runner-up, else die. -/
def multilibSelect (ms : List Multilib) (flags : List String) : SelectOutcome :=
  match ms.filter (multilibMatches flags) with
  | [] => .noMatch
  | [m] => .picked m
  | m₁ :: m₂ :: rest =>
    match sortByPriorityDesc (m₁ :: m₂ :: rest) with
    | a :: b :: _ => if a.priority > b.priority then .picked a else .fatalTie
    | _ => .fatalTie

/-! Section: The Orihime toolchain constructor -/

/-- The FilePaths lambda in Orihime::Orihime: in C++ driver mode, when the
toolchain has a C++ standard library path, the single generated path is that
path with the variant's gcc suffix appended; otherwise no path is
generated.  The C++ standard library path itself comes from the external
ToolChain getCXXStdlibPath and is passed in as a parameter. -/
def filePathsCallback (cccIsCXX : Bool) (cxxStdlibPath : Option String)
    (m : Multilib) : List String :=
  if cccIsCXX then
    match cxxStdlibPath with
    | some p => [pathAppend p m.gccSuffix]
    | none => []
  else []

/-- The multilib set built and filtered by Orihime::Orihime: the default
variant and the noexcept variant, with FilterOut removing every variant all
of whose generated paths fail the filesystem existence probe (all_of over an
empty path list is vacuously true, so a variant generating no paths is
removed as well). -/
def orihimeMultilibs (cccIsCXX : Bool) (cxxStdlibPath : Option String)
    (vfsExists : String → Bool) : List Multilib :=
  [defaultMultilib, noexceptMultilib].filter (fun m =>
    !((filePathsCallback cccIsCXX cxxStdlibPath m).all (fun p => !vfsExists p)))

/-- addMultilibFlag applied to hasFlag(fexceptions, fno-exceptions, default
true): the single invocation flag, plus-prefixed when exceptions are
enabled. -/
def orihimeFlags (fexceptions : Bool) : List String :=
  [(if fexceptions then "+" else "-") ++ "fexceptions"]

/-- The observable state of a constructed Orihime toolchain: the file
(library search) path list, the selected multilib, and the filtered multilib
set. -/
structure OrihimeTC where
  filePaths : List String
  selectedMultilib : Multilib
  multilibs : List Multilib
deriving DecidableEq, Repr

/-- Model of the Orihime::Orihime constructor body.  Parameters:
`initFilePaths` is whatever the external ToolChain base constructor already
put into getFilePaths; `sysRoot` is the driver sysroot; `cccIsCXX` the
driver C++ mode; `cxxStdlibPath` the external getCXXStdlibPath answer;
`vfsExists` the filesystem existence probe; `fexceptions` the value of
hasFlag(fexceptions, fno-exceptions, true).  Steps, as in the source: push
the sysroot library directory when the sysroot is nonempty; build and
existence-filter the multilib set; select against the exceptions flag; on a
successful selection of a non-default variant, insert each generated path at
the front of the file path list (front insertion reverses the generated
order); a failed selection leaves the default-constructed selected multilib
in place; the fatal tie path aborts the process, modelled as none. -/
def mkOrihime (initFilePaths : List String) (sysRoot : String)
    (cccIsCXX : Bool) (cxxStdlibPath : Option String)
    (vfsExists : String → Bool) (fexceptions : Bool) : Option OrihimeTC :=
  let filePaths0 :=
    initFilePaths ++ (if sysRoot == "" then [] else [libraryPath sysRoot])
  let ms := orihimeMultilibs cccIsCXX cxxStdlibPath vfsExists
  match multilibSelect ms (orihimeFlags fexceptions) with
  | .picked m =>
    if m.isDefault then
      some ⟨filePaths0, m, ms⟩
    else
      some ⟨(filePathsCallback cccIsCXX cxxStdlibPath m).reverse ++ filePaths0,
            m, ms⟩
  | .noMatch => some ⟨filePaths0, defaultMultilib, ms⟩
  | .fatalTie => none

/-! Section: The linker job builder -/

/-- The argument-list queries made by orihime::Linker::ConstructJob, taken
as already-resolved booleans and rendered argument lists (the generic option
model is an external collaborator): presence of the strip flag, of the
relocatable flag, of the no-standard-library and no-start-files flags, and
the rendered -L and -u argument sequences. -/
structure LinkArgs where
  hasStrip : Bool
  hasReloc : Bool
  noStdlib : Bool
  noStartfiles : Bool
  ellArgs : List String
  uArgs : List String
deriving DecidableEq, Repr

/-- The ld.lld test at the top of ConstructJob: the executable filename or
stem equals ld.lld case-insensitively. -/
def usesLLDSegments (exec : String) : Bool :=
  eqLower (pathFilename exec) "ld.lld" || eqLower (pathStem exec) "ld.lld"

/-- The command arguments built by ConstructJob before the LTO block:
the conditional -z separate-loadable-segments pair, the sysroot argument,
the strip flag, the relocatable flag or the build-id and hash-style pair,
the unconditional --eh-frame-hdr and -Bstatic, the output, the linker
inputs (AddLinkerInputs renders file inputs as their filenames in order,
modelled from the spec step emitting all resolved link inputs in their
given order), the conditional base runtime library, the user -L and -u
arguments, and the toolchain file-path library arguments (the external
AddFilePathLibArgs output, passed in as a list). -/
def linkCmdBase (exec : String) (sysRoot : String) (A : LinkArgs)
    (outputFile : String) (inputs : List String)
    (filePathLibArgs : List String) : List String :=
  (if usesLLDSegments exec then ["-z", "separate-loadable-segments"] else [])
    ++ (if sysRoot == "" then [] else ["--sysroot=" ++ sysRoot])
    ++ (if A.hasStrip then ["-s"] else [])
    ++ (if A.hasReloc then ["-r"] else ["--build-id", "--hash-style=gnu"])
    ++ ["--eh-frame-hdr", "-Bstatic", "-o", outputFile]
    ++ inputs
    ++ (if A.noStdlib || A.noStartfiles then [] else ["-losrt"])
    ++ A.ellArgs
    ++ A.uArgs
    ++ filePathLibArgs

/-- Model of orihime::Linker::ConstructJob.  `usingLTO` and `ltoThin` are
the driver LTO queries; `ltoOpts` is the external addLTOOptions block as a
function of the representative input and the thin-mode bit (modelled from
the spec: the LTO option block appropriate to the requested mode, using the
first link input as the representative action).  The assertion that at
least one input exists when LTO is requested is modelled as none. -/
def constructJob (exec : String) (sysRoot : String) (A : LinkArgs)
    (outputFile : String) (inputs : List String)
    (filePathLibArgs : List String) (usingLTO : Bool) (ltoThin : Bool)
    (ltoOpts : String → Bool → List String) : Option (List String) :=
  let base := linkCmdBase exec sysRoot A outputFile inputs filePathLibArgs
  if usingLTO then
    match inputs with
    | [] => none
    | i :: _ => some (base ++ ltoOpts i ltoThin)
  else some base

/-! Section: Policy queries -/

/-- ToolChain runtime library kinds (the two clang values that can occur
here). -/
inductive RuntimeLibType where
  | CompilerRT : RuntimeLibType
  | Libgcc : RuntimeLibType
deriving DecidableEq, Repr

/-- ToolChain C++ standard library kinds. -/
inductive CXXStdlibType where
  | Libcxx : CXXStdlibType
  | Libstdcxx : CXXStdlibType
deriving DecidableEq, Repr

/-- Model of Orihime::GetRuntimeLibType.  The parameter is the value of the
last rtlib= argument, when present.  Returns the number of diagnostics
emitted together with the resulting kind: one diagnostic when the requested
name differs from compiler-rt, and always the compiler-rt kind. -/
def GetRuntimeLibType (rtlibArg : Option String) : Nat × RuntimeLibType :=
  match rtlibArg with
  | some v => (if v == "compiler-rt" then 0 else 1, .CompilerRT)
  | none => (0, .CompilerRT)

/-- Model of Orihime::GetCXXStdlibType: one diagnostic when the last
stdlib= argument names anything but libc++, and always the libc++ kind. -/
def GetCXXStdlibType (stdlibArg : Option String) : Nat × CXXStdlibType :=
  match stdlibArg with
  | some v => (if v == "libc++" then 0 else 1, .Libcxx)
  | none => (0, .Libcxx)

/-! Section: Include path resolution -/

/-- Split a colon-separated directory list, as StringRef split does
(empty pieces kept). -/
def splitColon (s : String) : List String := s.splitOn ":"

/-- llvm sys path is_absolute for posix: the path begins with a
separator. -/
def isAbsolutePath (p : String) : Bool := compHasSep p

/-- Model of Orihime::AddClangSystemIncludeArgs.  Returns the pair of the
system include directory list and the extern-C system include directory
list (each addSystemInclude call appends to the first component, each
addExternCSystemInclude call to the second).  `cIncludeDirs` is the value
of the build-configuration macro C_INCLUDE_DIRS. -/
def addClangSystemIncludeArgs (sysRoot resourceDir cIncludeDirs : String)
    (noStdInc noBuiltinInc noStdlibInc : Bool) :
    List String × List String :=
  if noStdInc then ([], [])
  else
    let sys := if noBuiltinInc then [] else [pathAppend resourceDir "include"]
    if noStdlibInc then (sys, [])
    else if cIncludeDirs != "" then
      (sys, (splitColon cIncludeDirs).map (fun dir =>
        (if isAbsolutePath dir then sysRoot else "") ++ dir))
    else
      (sys,
       [pathAppend (pathAppend (pathAppend
          (if sysRoot == "" then "/" else sysRoot)
          "resource") "development") "include"])

/-- Model of Orihime::AddClangCXXStdlibIncludeArgs.  Returns the system
include directories added (none when suppressed) together with the number of
diagnostics emitted by the embedded GetCXXStdlibType call; the whole result
is none exactly on the llvm_unreachable branch for a non-libc++ kind. -/
def addClangCXXStdlibIncludeArgs (sysRoot : String)
    (stdlibArg : Option String) (noStdlibInc noStdIncCXX : Bool) :
    Option (List String × Nat) :=
  if noStdlibInc || noStdIncCXX then some ([], 0)
  else
    let r := GetCXXStdlibType stdlibArg
    match r.2 with
    | .Libcxx =>
      some ([pathAppend (pathAppend (pathAppend (pathAppend
              (if sysRoot == "" then "/" else sysRoot)
              "resource") "development") "include") "libcxx"], r.1)
    | .Libstdcxx => none

/-! Section: Path lemmas -/

theorem data_append (a b : String) : (a ++ b).data = a.data ++ b.data := by
  cases a; cases b; rfl

theorem ne_empty_of_data_ne (q : String) (h : q.data ≠ []) : q ≠ "" := by
  intro he; exact h (by rw [he])

theorem data_ne_of_ne_empty (q : String) (h : q ≠ "") : q.data ≠ [] := by
  intro hd; exact h (by cases q; simp_all)

theorem append_ne_empty (p q : String) (hq : q ≠ "") : p ++ q ≠ "" := by
  apply ne_empty_of_data_ne
  rw [data_append]
  simp [data_ne_of_ne_empty q hq]

theorem lastChar_append (p q : String) (hq : q ≠ "") :
    lastChar (p ++ q) = lastChar q := by
  unfold lastChar
  rw [data_append, List.getLast?_append]
  obtain ⟨c, hc⟩ := Option.isSome_iff_exists.mp
    (List.getLast?_isSome.mpr (data_ne_of_ne_empty q hq))
  rw [hc]; rfl

theorem pathAppend_of_simple (p c : String) (h0 : p ≠ "")
    (h1 : lastChar p ≠ some '/') (hc : headChar c ≠ some '/') :
    pathAppend p c = p ++ "/" ++ c := by
  have hb1 : (lastChar p == some '/') = false := beq_eq_false_iff_ne.mpr h1
  have hb2 : (headChar c == some '/') = false := beq_eq_false_iff_ne.mpr hc
  have hb3 : (p != "") = true := bne_iff_ne.mpr h0
  simp [pathAppend, pathHasSep, compHasSep, hb1, hb2, hb3]

theorem pathAppend_chain (p q c m : String) (hq : q ≠ "")
    (h1 : lastChar q ≠ some '/') (hc : headChar c ≠ some '/')
    (hm : q ++ "/" ++ c = m) :
    pathAppend (p ++ q) c = p ++ m := by
  rw [pathAppend_of_simple (p ++ q) c (append_ne_empty p q hq)
        (by rw [lastChar_append p q hq]; exact h1) hc]
  simp only [String.append_assoc]
  rw [← String.append_assoc q "/" c, hm]

theorem resdev_eq (S : String) (h0 : S ≠ "") (h1 : lastChar S ≠ some '/') :
    pathAppend (pathAppend S "resource") "development" =
      S ++ "/resource/development" := by
  have e1 : pathAppend S "resource" = S ++ "/resource" := by
    rw [pathAppend_of_simple S "resource" h0 h1 (by decide),
        String.append_assoc]
    exact congrArg (fun t => S ++ t) (by decide)
  rw [e1]
  exact pathAppend_chain S "/resource" "development" _ (by decide) (by decide)
    (by decide) (by decide)

theorem libraryPath_eq (S : String) (h0 : S ≠ "")
    (h1 : lastChar S ≠ some '/') :
    libraryPath S = S ++ "/resource/development/library" := by
  unfold libraryPath
  rw [resdev_eq S h0 h1]
  exact pathAppend_chain S "/resource/development" "library" _ (by decide)
    (by decide) (by decide) (by decide)

theorem resdevinc_eq (S : String) (h0 : S ≠ "")
    (h1 : lastChar S ≠ some '/') :
    pathAppend (pathAppend (pathAppend S "resource") "development")
        "include" = S ++ "/resource/development/include" := by
  rw [resdev_eq S h0 h1]
  exact pathAppend_chain S "/resource/development" "include" _ (by decide)
    (by decide) (by decide) (by decide)

theorem libcxxinc_eq (S : String) (h0 : S ≠ "")
    (h1 : lastChar S ≠ some '/') :
    pathAppend (pathAppend (pathAppend (pathAppend S "resource")
        "development") "include") "libcxx" =
      S ++ "/resource/development/include/libcxx" := by
  rw [resdevinc_eq S h0 h1]
  exact pathAppend_chain S "/resource/development/include" "libcxx" _
    (by decide) (by decide) (by decide) (by decide)

theorem include_of_resourceDir (R : String) (h0 : R ≠ "")
    (h1 : lastChar R ≠ some '/') :
    pathAppend R "include" = R ++ "/include" := by
  rw [pathAppend_of_simple R "include" h0 h1 (by decide),
      String.append_assoc]
  exact congrArg (fun t => R ++ t) (by decide)

/-! Section: Multilib selection lemmas -/

theorem bnot_all_bnot (l : List String) (f : String → Bool) :
    (!(l.all fun p => !f p)) = l.any f := by
  induction l with
  | nil => rfl
  | cons a t ih => simp [List.all_cons, List.any_cons, ← ih]

theorem orihimeMultilibs_eq (c : Bool) (x : Option String)
    (v : String → Bool) :
    orihimeMultilibs c x v =
      (if (filePathsCallback c x defaultMultilib).any v
        then [defaultMultilib] else [])
      ++ (if (filePathsCallback c x noexceptMultilib).any v
        then [noexceptMultilib] else []) := by
  unfold orihimeMultilibs
  rw [List.filter_cons, List.filter_cons, List.filter_nil,
      bnot_all_bnot, bnot_all_bnot]
  cases hb1 : (filePathsCallback c x defaultMultilib).any v <;>
  cases hb2 : (filePathsCallback c x noexceptMultilib).any v <;>
  simp [hb1, hb2]

/-- Full characterization of the constructor model: construction always
succeeds (the fatal tie between equal priorities cannot arise from this
two-variant set), the noexcept variant is selected exactly when exceptions
are disabled and one of its generated paths exists, and its generated paths
are then placed in front of the file path list. -/
theorem mkOrihime_spec (init : List String) (sysRoot : String) (c : Bool)
    (x : Option String) (v : String → Bool) (e : Bool) :
    mkOrihime init sysRoot c x v e =
      some ⟨(if !e && (filePathsCallback c x noexceptMultilib).any v
              then (filePathsCallback c x noexceptMultilib).reverse ++
                (init ++ (if sysRoot == "" then [] else [libraryPath sysRoot]))
              else
                init ++ (if sysRoot == "" then [] else [libraryPath sysRoot])),
            (if !e && (filePathsCallback c x noexceptMultilib).any v
              then noexceptMultilib else defaultMultilib),
            orihimeMultilibs c x v⟩ := by
  have s1 : multilibSelect [defaultMultilib, noexceptMultilib]
      (orihimeFlags true) = .picked defaultMultilib := by decide
  have s2 : multilibSelect [defaultMultilib] (orihimeFlags true) =
      .picked defaultMultilib := by decide
  have s3 : multilibSelect [noexceptMultilib] (orihimeFlags true) =
      .noMatch := by decide
  have s4 : multilibSelect [] (orihimeFlags true) = .noMatch := by decide
  have s5 : multilibSelect [defaultMultilib, noexceptMultilib]
      (orihimeFlags false) = .picked noexceptMultilib := by decide
  have s6 : multilibSelect [defaultMultilib] (orihimeFlags false) =
      .picked defaultMultilib := by decide
  have s7 : multilibSelect [noexceptMultilib] (orihimeFlags false) =
      .picked noexceptMultilib := by decide
  have s8 : multilibSelect [] (orihimeFlags false) = .noMatch := by decide
  have hd : defaultMultilib.isDefault = true := by decide
  have hn : noexceptMultilib.isDefault = false := by decide
  unfold mkOrihime
  rw [orihimeMultilibs_eq]
  cases hb1 : (filePathsCallback c x defaultMultilib).any v <;>
  cases hb2 : (filePathsCallback c x noexceptMultilib).any v <;>
  cases e <;>
  simp [hb1, hb2, s1, s2, s3, s4, s5, s6, s7, s8, hd, hn]

/-! Section: Link command lemmas -/

theorem append_lit_ne (a s b : String) (n : Nat) (hn : n < a.data.length)
    (hne : a.data[n]? ≠ b.data[n]?) : a ++ s ≠ b := by
  intro h
  apply hne
  have hd : a.data ++ s.data = b.data := by rw [← data_append, h]
  rw [← hd, List.getElem?_append_left hn]

/-- Membership in the pre-LTO part of the link command, segment by
segment. -/
theorem mem_linkCmdBase_iff (exec sysRoot : String) (A : LinkArgs)
    (outputFile : String) (inputs fpl : List String) (s : String) :
    s ∈ linkCmdBase exec sysRoot A outputFile inputs fpl ↔
      (usesLLDSegments exec = true ∧
        (s = "-z" ∨ s = "separate-loadable-segments"))
      ∨ ((sysRoot == "") = false ∧ s = "--sysroot=" ++ sysRoot)
      ∨ (A.hasStrip = true ∧ s = "-s")
      ∨ (A.hasReloc = true ∧ s = "-r")
      ∨ (A.hasReloc = false ∧ (s = "--build-id" ∨ s = "--hash-style=gnu"))
      ∨ s = "--eh-frame-hdr" ∨ s = "-Bstatic" ∨ s = "-o" ∨ s = outputFile
      ∨ s ∈ inputs
      ∨ (A.noStdlib = false ∧ A.noStartfiles = false ∧ s = "-losrt")
      ∨ s ∈ A.ellArgs ∨ s ∈ A.uArgs ∨ s ∈ fpl := by
  unfold linkCmdBase
  cases hz : usesLLDSegments exec <;>
  cases hs : sysRoot == "" <;>
  cases h1 : A.hasStrip <;>
  cases h2 : A.hasReloc <;>
  cases h3 : A.noStdlib <;>
  cases h4 : A.noStartfiles <;>
  simp [hz, hs, h1, h2, h3, h4, or_assoc]

/-! Section: Claim theorems: linker command builder -/

/-- C1: for a link invocation with sysroot /opt/target, link inputs a.o and
b.o, output a.out, no suppression flags, exceptions enabled (hence no
multilib effect on the command itself) and a linker executable that is not
ld.lld, ConstructJob produces exactly the ordered argument vector
--sysroot=/opt/target --build-id --hash-style=gnu --eh-frame-hdr -Bstatic
-o a.out a.o b.o -losrt followed by the toolchain file-path library
arguments. -/
theorem C1_link_end_to_end (exec : String) (fpl : List String)
    (ltoOpts : String → Bool → List String)
    (hexec : usesLLDSegments exec = false) :
    constructJob exec "/opt/target"
      ⟨false, false, false, false, [], []⟩ "a.out" ["a.o", "b.o"] fpl
      false false ltoOpts =
      some (["--sysroot=/opt/target", "--build-id", "--hash-style=gnu",
             "--eh-frame-hdr", "-Bstatic", "-o", "a.out", "a.o", "b.o",
             "-losrt"] ++ fpl) := by
  unfold constructJob linkCmdBase
  rw [hexec]
  rfl

theorem C1_link_end_to_end_witness :
    constructJob "lld" "/opt/target"
      ⟨false, false, false, false, [], []⟩ "a.out" ["a.o", "b.o"]
      ["-L/opt/target/resource/development/library"] false false
      (fun _ _ => []) =
      some (["--sysroot=/opt/target", "--build-id", "--hash-style=gnu",
             "--eh-frame-hdr", "-Bstatic", "-o", "a.out", "a.o", "b.o",
             "-losrt"] ++ ["-L/opt/target/resource/development/library"]) :=
  C1_link_end_to_end "lld" ["-L/opt/target/resource/development/library"]
    (fun _ _ => []) (by decide)

/-- C6: every produced link command contains -Bstatic, regardless of any
flags. -/
theorem C6_always_Bstatic (exec sysRoot : String) (A : LinkArgs)
    (outputFile : String) (inputs fpl : List String) (u t : Bool)
    (ltoOpts : String → Bool → List String) (cmd : List String)
    (h : constructJob exec sysRoot A outputFile inputs fpl u t ltoOpts =
      some cmd) :
    "-Bstatic" ∈ cmd := by
  have hb : "-Bstatic" ∈ linkCmdBase exec sysRoot A outputFile inputs fpl := by
    rw [mem_linkCmdBase_iff]
    simp
  unfold constructJob at h
  cases u with
  | false =>
    simp only [if_neg (by simp : ¬(false = true))] at h
    exact (Option.some.inj h) ▸ hb
  | true =>
    simp only [if_pos rfl] at h
    cases inputs with
    | nil => exact absurd h (by simp)
    | cons i rest =>
      exact (Option.some.inj h) ▸ List.mem_append_left _ hb

theorem C6_always_Bstatic_witness : "-Bstatic" ∈
    ["--sysroot=/opt/target", "--build-id", "--hash-style=gnu",
     "--eh-frame-hdr", "-Bstatic", "-o", "a.out", "a.o", "b.o", "-losrt"] :=
  C6_always_Bstatic "lld" "/opt/target" ⟨false, false, false, false, [], []⟩
    "a.out" ["a.o", "b.o"] [] false false (fun _ _ => []) _ (by decide)

/-- C3 counterexample: with the relocatable flag set and no other
suppression flags, the produced command still contains -losrt (the source
suppresses -losrt only under nostdlib and nostartfiles, not under -r), so
the claim that the command contains none of --build-id, --hash-style=gnu
and -losrt is false at this concrete input. -/
theorem C3_relocatable_cex :
    constructJob "lld" "/opt/target" ⟨false, true, false, false, [], []⟩
      "a.out" ["a.o", "b.o"] [] false false (fun _ _ => []) =
      some ["--sysroot=/opt/target", "-r", "--eh-frame-hdr", "-Bstatic",
            "-o", "a.out", "a.o", "b.o", "-losrt"]
    ∧ "-losrt" ∈ ["--sysroot=/opt/target", "-r", "--eh-frame-hdr",
        "-Bstatic", "-o", "a.out", "a.o", "b.o", "-losrt"] := by
  exact ⟨by decide, by decide⟩

/-- C3 amended: for every link invocation with the relocatable flag set and
the standard-library suppression flags clear, the produced command contains
-r and also -losrt, and contains neither --build-id nor --hash-style=gnu
(given that none of the externally supplied argument strings — output,
inputs, -L and -u arguments, file-path library arguments, LTO options — is
literally one of the two latter strings). -/
theorem C3_relocatable_amended (exec sysRoot outputFile : String)
    (A : LinkArgs) (inputs fpl : List String) (u t : Bool)
    (ltoOpts : String → Bool → List String)
    (hr : A.hasReloc = true) (hsl : A.noStdlib = false)
    (hsf : A.noStartfiles = false)
    (hout : outputFile ≠ "--build-id" ∧ outputFile ≠ "--hash-style=gnu")
    (hin : ∀ s, s ∈ inputs ++ A.ellArgs ++ A.uArgs ++ fpl →
        s ≠ "--build-id" ∧ s ≠ "--hash-style=gnu")
    (hlto : ∀ i b, ∀ s, s ∈ ltoOpts i b →
        s ≠ "--build-id" ∧ s ≠ "--hash-style=gnu")
    (cmd : List String)
    (h : constructJob exec sysRoot A outputFile inputs fpl u t ltoOpts =
      some cmd) :
    "-r" ∈ cmd ∧ "-losrt" ∈ cmd ∧ "--build-id" ∉ cmd ∧
      "--hash-style=gnu" ∉ cmd := by
  have hrmem : "-r" ∈ linkCmdBase exec sysRoot A outputFile inputs fpl := by
    rw [mem_linkCmdBase_iff]; simp [hr]
  have hlmem : "-losrt" ∈ linkCmdBase exec sysRoot A outputFile inputs fpl := by
    rw [mem_linkCmdBase_iff]; simp [hsl, hsf]
  have hnot : ∀ s, s = "--build-id" ∨ s = "--hash-style=gnu" →
      s ∉ linkCmdBase exec sysRoot A outputFile inputs fpl := by
    intro s hs hmem
    rw [mem_linkCmdBase_iff] at hmem
    rcases hmem with ⟨_, h' | h'⟩ | ⟨_, h'⟩ | ⟨_, h'⟩ | ⟨_, h'⟩ |
      ⟨hfl, _⟩ | h' | h' | h' | h' | h' | ⟨_, _, h'⟩ | h' | h' | h'
    · rcases hs with rfl | rfl <;> exact absurd h' (by decide)
    · rcases hs with rfl | rfl <;> exact absurd h' (by decide)
    · rcases hs with rfl | rfl <;>
        exact append_lit_ne "--sysroot=" sysRoot _ 2 (by decide)
          (by decide) h'.symm
    · rcases hs with rfl | rfl <;> exact absurd h' (by decide)
    · rcases hs with rfl | rfl <;> exact absurd h' (by decide)
    · rw [hr] at hfl; exact absurd hfl (by decide)
    · rcases hs with rfl | rfl <;> exact absurd h' (by decide)
    · rcases hs with rfl | rfl <;> exact absurd h' (by decide)
    · rcases hs with rfl | rfl <;> exact absurd h' (by decide)
    · rcases hs with rfl | rfl
      · exact hout.1 h'.symm
      · exact hout.2 h'.symm
    · have := hin s (List.mem_append_left _
        (List.mem_append_left _ (List.mem_append_left _ h')))
      rcases hs with rfl | rfl
      · exact this.1 rfl
      · exact this.2 rfl
    · rcases hs with rfl | rfl <;> exact absurd h' (by decide)
    · have := hin s (List.mem_append_left _
        (List.mem_append_left _ (List.mem_append_right _ h')))
      rcases hs with rfl | rfl
      · exact this.1 rfl
      · exact this.2 rfl
    · have := hin s (List.mem_append_left _ (List.mem_append_right _ h'))
      rcases hs with rfl | rfl
      · exact this.1 rfl
      · exact this.2 rfl
    · have := hin s (List.mem_append_right _ h')
      rcases hs with rfl | rfl
      · exact this.1 rfl
      · exact this.2 rfl
  unfold constructJob at h
  cases u with
  | false =>
    simp only [if_neg (by simp : ¬(false = true))] at h
    obtain rfl := Option.some.inj h
    exact ⟨hrmem, hlmem, hnot _ (Or.inl rfl), hnot _ (Or.inr rfl)⟩
  | true =>
    simp only [if_pos rfl] at h
    cases inputs with
    | nil => exact absurd h (by simp)
    | cons i rest =>
      obtain rfl := Option.some.inj h
      refine ⟨List.mem_append_left _ hrmem, List.mem_append_left _ hlmem,
        ?_, ?_⟩ <;>
      · intro hmem
        rcases List.mem_append.mp hmem with hmem | hmem
        · exact hnot _ (by simp) hmem
        · have := hlto i t _ hmem
          simp_all

theorem C3_relocatable_amended_witness :
    "-r" ∈ ["--sysroot=/opt/target", "-r", "--eh-frame-hdr", "-Bstatic",
        "-o", "a.out", "a.o", "b.o", "-losrt"]
    ∧ "-losrt" ∈ ["--sysroot=/opt/target", "-r", "--eh-frame-hdr",
        "-Bstatic", "-o", "a.out", "a.o", "b.o", "-losrt"]
    ∧ "--build-id" ∉ ["--sysroot=/opt/target", "-r", "--eh-frame-hdr",
        "-Bstatic", "-o", "a.out", "a.o", "b.o", "-losrt"]
    ∧ "--hash-style=gnu" ∉ ["--sysroot=/opt/target", "-r", "--eh-frame-hdr",
        "-Bstatic", "-o", "a.out", "a.o", "b.o", "-losrt"] :=
  C3_relocatable_amended "lld" "/opt/target" "a.out"
    ⟨false, true, false, false, [], []⟩ ["a.o", "b.o"] [] false false
    (fun _ _ => []) rfl rfl rfl (by decide) (by decide)
    (fun _ _ s hs => absurd hs (by simp)) _ (by decide)

/-- C9: when link-time optimization is requested, an empty input list hits
the assertion (modelled as none, a fatal contract violation), and a
non-empty input list never does: the LTO option block for the first input
is appended to the command. -/
theorem C9_lto_assertion (exec sysRoot : String) (A : LinkArgs)
    (outputFile : String) (inputs fpl : List String) (t : Bool)
    (ltoOpts : String → Bool → List String) :
    (inputs = [] →
      constructJob exec sysRoot A outputFile inputs fpl true t ltoOpts =
        none)
    ∧ (∀ i rest, inputs = i :: rest →
      constructJob exec sysRoot A outputFile inputs fpl true t ltoOpts =
        some (linkCmdBase exec sysRoot A outputFile inputs fpl ++
          ltoOpts i t)) := by
  constructor
  · rintro rfl; rfl
  · rintro i rest rfl; rfl

theorem C9_lto_assertion_witness :
    constructJob "lld" "/opt/target" ⟨false, false, false, false, [], []⟩
      "a.out" [] [] true false (fun i _ => ["-flto", i]) = none
    ∧ constructJob "lld" "/opt/target" ⟨false, false, false, false, [], []⟩
      "a.out" ["a.o"] [] true false (fun i _ => ["-flto", i]) =
      some (linkCmdBase "lld" "/opt/target"
        ⟨false, false, false, false, [], []⟩ "a.out" ["a.o"] [] ++
        ["-flto", "a.o"]) :=
  ⟨(C9_lto_assertion "lld" "/opt/target" ⟨false, false, false, false, [], []⟩
      "a.out" [] [] false (fun i _ => ["-flto", i])).1 rfl,
   (C9_lto_assertion "lld" "/opt/target" ⟨false, false, false, false, [], []⟩
      "a.out" ["a.o"] [] false (fun i _ => ["-flto", i])).2 "a.o" [] rfl⟩

/-! Section: Claim theorems: multilib selection -/

/-- C2: at toolchain construction, when the exceptions flag is false and
some generated path of the noexcept variant exists on the filesystem, the
noexcept variant is selected; when the exceptions flag is true, or no
generated noexcept path exists, the default variant is selected. -/
theorem C2_multilib_selection (init : List String) (sysRoot : String)
    (c : Bool) (x : Option String) (v : String → Bool) (e : Bool)
    (tc : OrihimeTC) (h : mkOrihime init sysRoot c x v e = some tc) :
    (e = false → (filePathsCallback c x noexceptMultilib).any v = true →
        tc.selectedMultilib = noexceptMultilib)
    ∧ (e = true → tc.selectedMultilib = defaultMultilib)
    ∧ (e = false → (filePathsCallback c x noexceptMultilib).any v = false →
        tc.selectedMultilib = defaultMultilib) := by
  rw [mkOrihime_spec] at h
  obtain rfl := Option.some.inj h
  refine ⟨?_, ?_, ?_⟩
  · rintro rfl hb; simp [hb]
  · rintro rfl; simp
  · rintro rfl hb; simp [hb]

theorem C2_multilib_selection_witness :
    (⟨["/cxx/noexcept", "/opt/target/resource/development/library"],
        noexceptMultilib, [noexceptMultilib]⟩ : OrihimeTC).selectedMultilib =
      noexceptMultilib :=
  (C2_multilib_selection [] "/opt/target" true (some "/cxx")
      (fun p => p == "/cxx/noexcept") false
      ⟨["/cxx/noexcept", "/opt/target/resource/development/library"],
        noexceptMultilib, [noexceptMultilib]⟩ (by decide)).1 rfl (by decide)

/-- C8 counterexample: in a non-C++ driver mode the FilePaths callback
generates no path for any variant, all_of over the empty list is vacuously
true, and FilterOut therefore removes every variant — including the default
one — from the multilib set, even on a filesystem where every path exists.
The constructed toolchain has an empty multilib set, refuting the claim
that filtering never removes the default variant. -/
theorem C8_default_filter_cex :
    mkOrihime [] "/sr" false none (fun _ => true) true =
      some ⟨["/sr/resource/development/library"], defaultMultilib, []⟩ := by
  decide

/-- C8 amended: the filtering step keeps the default variant exactly when
one of its generated file paths exists; when the default variant generates
no paths (non-C++ mode or no C++ standard library path) or only nonexistent
ones, it is removed together with the others, and selection then falls back
to the default-constructed variant. -/
theorem C8_default_filter_amended (init : List String) (sysRoot : String)
    (c : Bool) (x : Option String) (v : String → Bool) (e : Bool)
    (tc : OrihimeTC) (h : mkOrihime init sysRoot c x v e = some tc) :
    defaultMultilib ∈ tc.multilibs ↔
      (filePathsCallback c x defaultMultilib).any v = true := by
  rw [mkOrihime_spec] at h
  obtain rfl := Option.some.inj h
  show defaultMultilib ∈ orihimeMultilibs c x v ↔ _
  rw [orihimeMultilibs_eq]
  have hne : defaultMultilib ≠ noexceptMultilib := by decide
  cases hb1 : (filePathsCallback c x defaultMultilib).any v <;>
  cases hb2 : (filePathsCallback c x noexceptMultilib).any v <;>
  simp [hb1, hb2, hne]

theorem C8_default_filter_amended_witness :
    defaultMultilib ∈
      (⟨["/sr/resource/development/library"], defaultMultilib,
        [defaultMultilib]⟩ : OrihimeTC).multilibs ↔
      (filePathsCallback true (some "/cxx") defaultMultilib).any
        (fun p => p == "/cxx/") = true :=
  C8_default_filter_amended [] "/sr" true (some "/cxx")
    (fun p => p == "/cxx/") true
    ⟨["/sr/resource/development/library"], defaultMultilib,
      [defaultMultilib]⟩ (by decide)

/-- C10: a toolchain constructed with a nonempty sysroot has the sysroot
library directory in its file path list, and whenever a non-default
multilib variant is selected, the variant's generated C++ standard library
paths sit at the front of the list, ahead of the sysroot library
directory. -/
theorem C10_file_paths (init : List String) (S : String) (c : Bool)
    (x : Option String) (v : String → Bool) (e : Bool) (tc : OrihimeTC)
    (h : mkOrihime init S c x v e = some tc)
    (h0 : S ≠ "") (h1 : lastChar S ≠ some '/') :
    (S ++ "/resource/development/library") ∈ tc.filePaths
    ∧ (tc.selectedMultilib.isDefault = false →
        tc.filePaths =
          (filePathsCallback c x tc.selectedMultilib).reverse ++
            (init ++ [S ++ "/resource/development/library"])) := by
  rw [mkOrihime_spec] at h
  have hS : (S == "") = false := beq_eq_false_iff_ne.mpr h0
  rw [hS] at h
  simp only [Bool.false_eq_true, if_false, libraryPath_eq S h0 h1] at h
  obtain rfl := Option.some.inj h
  refine ⟨?_, ?_⟩
  · cases hcond : (!e && (filePathsCallback c x noexceptMultilib).any v) <;>
      simp [hcond]
  · intro hd
    cases hcond : (!e && (filePathsCallback c x noexceptMultilib).any v)
    · rw [hcond] at hd
      simp only [Bool.false_eq_true, if_false] at hd
      exact absurd hd (by decide)
    · simp [hcond]

theorem C10_file_paths_witness :
    ("/opt/target" ++ "/resource/development/library") ∈
      (⟨["/cxx/noexcept", "/opt/target/resource/development/library"],
        noexceptMultilib, [noexceptMultilib]⟩ : OrihimeTC).filePaths
    ∧ ((⟨["/cxx/noexcept", "/opt/target/resource/development/library"],
        noexceptMultilib, [noexceptMultilib]⟩ :
          OrihimeTC).selectedMultilib.isDefault = false →
      (⟨["/cxx/noexcept", "/opt/target/resource/development/library"],
        noexceptMultilib, [noexceptMultilib]⟩ : OrihimeTC).filePaths =
        (filePathsCallback true (some "/cxx")
          (⟨["/cxx/noexcept", "/opt/target/resource/development/library"],
            noexceptMultilib,
            [noexceptMultilib]⟩ : OrihimeTC).selectedMultilib).reverse ++
          ([] ++ ["/opt/target" ++ "/resource/development/library"])) :=
  C10_file_paths [] "/opt/target" true (some "/cxx")
    (fun p => p == "/cxx/noexcept") false
    ⟨["/cxx/noexcept", "/opt/target/resource/development/library"],
      noexceptMultilib, [noexceptMultilib]⟩ (by decide) (by decide)
    (by decide)

/-! Section: Claim theorems: include resolution and policy queries -/

/-- C4: with no suppression flags and an empty C_INCLUDE_DIRS build
configuration, system include resolution yields exactly the resource
directory include subdirectory as the system include list and exactly the
sysroot development include directory as the extern-C list, rooted at the
filesystem root when the sysroot is empty; the no-standard-includes flag
empties both lists, and the no-built-in-includes flag drops only the
resource directory entry. -/
theorem C4_system_includes (S R : String) (h1 : lastChar S ≠ some '/')
    (hR0 : R ≠ "") (hR1 : lastChar R ≠ some '/') :
    (S ≠ "" →
      addClangSystemIncludeArgs S R "" false false false =
        ([R ++ "/include"], [S ++ "/resource/development/include"]))
    ∧ (S = "" →
      addClangSystemIncludeArgs S R "" false false false =
        ([R ++ "/include"], ["/resource/development/include"]))
    ∧ (∀ cdirs : String, ∀ nb nsl : Bool,
        addClangSystemIncludeArgs S R cdirs true nb nsl = ([], []))
    ∧ (S ≠ "" →
      addClangSystemIncludeArgs S R "" false true false =
        ([], [S ++ "/resource/development/include"])) := by
  have hinc : pathAppend R "include" = R ++ "/include" :=
    include_of_resourceDir R hR0 hR1
  refine ⟨?_, ?_, ?_, ?_⟩
  · intro h0
    have hS : (S == "") = false := beq_eq_false_iff_ne.mpr h0
    simp [addClangSystemIncludeArgs, hS, hinc, resdevinc_eq S h0 h1]
  · rintro rfl
    simp [addClangSystemIncludeArgs, hinc]
    decide
  · intro cdirs nb nsl; rfl
  · intro h0
    have hS : (S == "") = false := beq_eq_false_iff_ne.mpr h0
    simp [addClangSystemIncludeArgs, hS, resdevinc_eq S h0 h1]

theorem C4_system_includes_witness :
    addClangSystemIncludeArgs "/opt/target" "/opt/target/lib/clang/1" ""
      false false false =
      (["/opt/target/lib/clang/1" ++ "/include"],
       ["/opt/target" ++ "/resource/development/include"]) :=
  (C4_system_includes "/opt/target" "/opt/target/lib/clang/1" (by decide)
      (by decide) (by decide)).1 (by decide)

/-- C5 counterexample: requesting the unsupported standard library name
libstdc++ is not a fatal error: GetCXXStdlibType emits one diagnostic and
still answers libc++, so the include directory is still added and the
unreachable branch is never taken, refuting the claim that any other
requested kind is a fatal error. -/
theorem C5_cxx_stdlib_cex :
    addClangCXXStdlibIncludeArgs "/opt/target" (some "libstdc++")
        false false =
      some (["/opt/target/resource/development/include/libcxx"], 1)
    ∧ addClangCXXStdlibIncludeArgs "/opt/target" (some "libstdc++")
        false false ≠ none := by
  exact ⟨by decide, by decide⟩

/-- C5 amended: when neither suppression flag is set, C++ standard library
include resolution adds exactly the single libcxx directory under the
sysroot (rooted at the filesystem root when the sysroot is empty); when
either flag is set it adds nothing; and a requested standard library name
other than libc++ is not fatal: it produces one diagnostic, the kind
resolves to the single supported one, and the directory is still added. -/
theorem C5_cxx_stdlib_includes (S : String) (stdlibArg : Option String)
    (h0 : S ≠ "") (h1 : lastChar S ≠ some '/') :
    (∀ a b : Bool, addClangCXXStdlibIncludeArgs S stdlibArg a b ≠ none)
    ∧ (addClangCXXStdlibIncludeArgs S stdlibArg false false =
        some ([S ++ "/resource/development/include/libcxx"],
          (GetCXXStdlibType stdlibArg).1))
    ∧ (∀ a b : Bool, (a || b) = true →
        addClangCXXStdlibIncludeArgs S stdlibArg a b = some ([], 0))
    ∧ (addClangCXXStdlibIncludeArgs "" stdlibArg false false =
        some (["/resource/development/include/libcxx"],
          (GetCXXStdlibType stdlibArg).1))
    ∧ (∀ v, stdlibArg = some v → v ≠ "libc++" →
        (GetCXXStdlibType stdlibArg).1 = 1)
    ∧ (stdlibArg = none ∨ stdlibArg = some "libc++" →
        (GetCXXStdlibType stdlibArg).1 = 0) := by
  have hS : (S == "") = false := beq_eq_false_iff_ne.mpr h0
  refine ⟨?_, ?_, ?_, ?_, ?_, ?_⟩
  · intro a b
    cases stdlibArg <;>
      simp [addClangCXXStdlibIncludeArgs, GetCXXStdlibType] <;>
      cases a <;> cases b <;> simp
  · cases stdlibArg <;>
      simp [addClangCXXStdlibIncludeArgs, GetCXXStdlibType, hS,
        libcxxinc_eq S h0 h1]
  · intro a b hab
    simp [addClangCXXStdlibIncludeArgs, hab]
  · cases stdlibArg <;>
      simp [addClangCXXStdlibIncludeArgs, GetCXXStdlibType] <;>
      decide
  · rintro v rfl hv
    simp [GetCXXStdlibType, beq_eq_false_iff_ne.mpr hv]
  · rintro (rfl | rfl) <;> rfl

theorem C5_cxx_stdlib_includes_witness :
    addClangCXXStdlibIncludeArgs "/opt/target" (some "libstdc++")
        false false =
      some (["/opt/target" ++ "/resource/development/include/libcxx"],
        (GetCXXStdlibType (some "libstdc++")).1)
    ∧ (GetCXXStdlibType (some "libstdc++")).1 = 1 :=
  ⟨(C5_cxx_stdlib_includes "/opt/target" (some "libstdc++") (by decide)
      (by decide)).2.1,
   (C5_cxx_stdlib_includes "/opt/target" (some "libstdc++") (by decide)
      (by decide)).2.2.2.2.1 "libstdc++" rfl (by decide)⟩

/-- C7: GetRuntimeLibType always returns the compiler-rt kind; requesting
any other runtime library name yields exactly one diagnostic, while a
compiler-rt request or no request yields none. -/
theorem C7_runtime_lib_type (rtlibArg : Option String) :
    (GetRuntimeLibType rtlibArg).2 = RuntimeLibType.CompilerRT
    ∧ (∀ v, rtlibArg = some v → v ≠ "compiler-rt" →
        (GetRuntimeLibType rtlibArg).1 = 1)
    ∧ (rtlibArg = none ∨ rtlibArg = some "compiler-rt" →
        (GetRuntimeLibType rtlibArg).1 = 0) := by
  refine ⟨?_, ?_, ?_⟩
  · cases rtlibArg <;> rfl
  · rintro v rfl hv
    simp [GetRuntimeLibType, beq_eq_false_iff_ne.mpr hv]
  · rintro (rfl | rfl) <;> rfl

theorem C7_runtime_lib_type_witness :
    (GetRuntimeLibType (some "libgcc")).2 = RuntimeLibType.CompilerRT
    ∧ (GetRuntimeLibType (some "libgcc")).1 = 1
    ∧ (GetRuntimeLibType none).1 = 0 :=
  ⟨(C7_runtime_lib_type (some "libgcc")).1,
   (C7_runtime_lib_type (some "libgcc")).2.1 "libgcc" rfl (by decide),
   (C7_runtime_lib_type none).2.2 (Or.inl rfl)⟩

end OrihimeSpec

